import Mathlib

/-!
# Shallow embedding of the beaesthetic analytics core

Verification development for the appointment-analytics service:
the period/comparison calculator (`AnalyticsService` in
`src/analytics/services/analytics.py`), the metric atomics
(`src/analytics/metrics/base.py`), the adaptive-TTL cache policy
(`src/analytics/cache.py`, `src/analytics/config.py`) and the insights
calculator (`src/analytics/services/insights.py`).

Machine integers are modelled as `ℤ`, floats as `ℚ` (all values involved
are decimal), datetimes as explicit calendar records ordered
lexicographically, dataframes as lists of rows.
-/

namespace Beaesthetic

/-- Two-decimal rounding: models Python `round(x, 2)` and Polars `.round(2)`. -/
def round2 (x : ℚ) : ℚ := ((round (x * 100) : ℤ) : ℚ) / 100

/-- Zero-padded two-digit rendering, modelling the format `f"{n:02d}"`. -/
def pad2 (n : ℤ) : String := if 0 ≤ n ∧ n < 10 then "0" ++ toString n else toString n

/-- A timestamp (`datetime` value): calendar date plus time-of-day in
microseconds.  Only ordering and the calendar fields are consumed by the
embedded code. -/
structure DateTime where
  year : ℤ
  month : ℤ
  day : ℤ
  usec : ℤ
deriving DecidableEq

/-- A calendar date, the result of Polars `dt.date()`. -/
structure Date where
  year : ℤ
  month : ℤ
  day : ℤ
deriving DecidableEq

/-- Polars `dt.date()`: drop the time-of-day. -/
def DateTime.date (t : DateTime) : Date := ⟨t.year, t.month, t.day⟩

/-- The Python constructor `datetime(y, m, d)` (midnight). -/
def DateTime.midnight (y m d : ℤ) : DateTime := ⟨y, m, d, 0⟩

/-- Chronological (lexicographic) order on timestamps. -/
def DateTime.Le (a b : DateTime) : Prop :=
  a.year < b.year ∨ (a.year = b.year ∧ (a.month < b.month ∨ (a.month = b.month ∧
    (a.day < b.day ∨ (a.day = b.day ∧ a.usec ≤ b.usec)))))

/-- Strict chronological order on timestamps. -/
def DateTime.Lt (a b : DateTime) : Prop :=
  a.year < b.year ∨ (a.year = b.year ∧ (a.month < b.month ∨ (a.month = b.month ∧
    (a.day < b.day ∨ (a.day = b.day ∧ a.usec < b.usec)))))

instance : DecidableRel DateTime.Le := fun a b => by
  unfold DateTime.Le; infer_instance

instance : DecidableRel DateTime.Lt := fun a b => by
  unfold DateTime.Lt; infer_instance

/-- Chronological (lexicographic) order on dates. -/
def Date.Le (a b : Date) : Prop :=
  a.year < b.year ∨ (a.year = b.year ∧ (a.month < b.month ∨ (a.month = b.month ∧
    a.day ≤ b.day)))

instance : DecidableRel Date.Le := fun a b => by
  unfold Date.Le; infer_instance

/-- A timestamp representable as a Python `datetime`: month in 1..12,
day at least 1, nonnegative time-of-day. -/
def DateTime.Valid (t : DateTime) : Prop :=
  1 ≤ t.month ∧ t.month ≤ 12 ∧ 1 ≤ t.day ∧ 0 ≤ t.usec

instance (t : DateTime) : Decidable t.Valid := by
  unfold DateTime.Valid; infer_instance

/-- A raw appointment document as fetched from the repository, restricted to
the fields read by `AnalyticsService._load_dataframe`: the `isCancelled` field
may be missing from a document (`Option`), and `cancelReason` is present on
documents but never loaded into the dataframe. -/
structure RawApt where
  id : String
  start : DateTime
  endT : DateTime
  isCancelled : Option Bool
  cancelReason : Option String
  createdAt : DateTime
deriving DecidableEq

/-- A row of the loaded analytics dataframe (columns `_id`, `start`, `end`,
`isCancelled`, `createdAt`). -/
structure Apt where
  id : String
  start : DateTime
  endT : DateTime
  isCancelled : Bool
  createdAt : DateTime
deriving DecidableEq

/-- One record of `AnalyticsService._load_dataframe`:
`"isCancelled": apt.get("isCancelled", False)`. -/
def load_record (a : RawApt) : Apt :=
  { id := a.id, start := a.start, endT := a.endT,
    isCancelled := a.isCancelled.getD false, createdAt := a.createdAt }

/-- Modelled from the spec: `AgendaRepository.find_by_created_at_range` is called
by the service but not defined under `src/`; per spec §6 (`fetchAppointments`,
start inclusive / end exclusive) and the Mongo query in
`repositories/agenda.py` (`{"createdAt": {"$gte": start, "$lt": end}}`) it
returns the documents with `createdAt ∈ [start_date, end_date)`. -/
def find_by_created_at_range (coll : List RawApt) (s e : DateTime) : List RawApt :=
  coll.filter fun a => decide (DateTime.Le s a.createdAt ∧ DateTime.Lt a.createdAt e)

/-- Model of `AnalyticsService._load_dataframe`: fetch a created-at range and build the
dataframe rows (the empty fetch yields the empty dataframe). -/
def _load_dataframe (coll : List RawApt) (s e : DateTime) : List Apt :=
  (find_by_created_at_range coll s e).map load_record

/-- Model of `analytics.models.AppointmentSummary`. -/
structure AppointmentSummary where
  period : String
  total_count : ℤ
  cancelled_count : ℤ
  completed_count : ℤ
  cancellation_rate : ℚ
deriving DecidableEq

/-- Model of `AnalyticsService._summarize`: totals, cancelled count (sum of the
`isCancelled` column), completed count and cancellation rate. -/
def _summarize (df : List Apt) (period : String) : AppointmentSummary :=
  if df.isEmpty then
    { period := period, total_count := 0, cancelled_count := 0,
      completed_count := 0, cancellation_rate := 0 }
  else
    let total : ℤ := df.length
    let cancelled : ℤ := (df.filter (·.isCancelled)).length
    { period := period
      total_count := total
      cancelled_count := cancelled
      completed_count := total - cancelled
      cancellation_rate := round2 (if 0 < total then (cancelled : ℚ) / (total : ℚ) * 100 else 0) }

/-- The period label `f"{year}-{month:02d}"`. -/
def month_period (y m : ℤ) : String := toString y ++ "-" ++ pad2 m

/-- The three derived change columns of the comparison endpoints. -/
structure Changes where
  count_change : ℤ
  count_pct : ℚ
  rate_change : ℚ
deriving DecidableEq

/-- The change-computation block appearing verbatim in both `compute_mom` and
`compute_yoy`: absolute count delta, percent count delta guarded by
`when(prev > 0) ... otherwise(0.0)` then rounded, and rounded rate delta. -/
def compute_changes (curr prev : ℤ) (curr_rate prev_rate : ℚ) : Changes :=
  { count_change := curr - prev
    count_pct := round2 (if 0 < prev then ((curr : ℚ) - (prev : ℚ)) / (prev : ℚ) * 100 else 0)
    rate_change := round2 (curr_rate - prev_rate) }

/-- Model of `analytics.models.MoMComparison`. -/
structure MoMComparison where
  current_month : AppointmentSummary
  previous_month : AppointmentSummary
  count_change : ℤ
  count_change_percent : ℚ
  cancellation_rate_change : ℚ
deriving DecidableEq

/-- Model of `AnalyticsService.compute_mom`: one combined load over
`[prev_start, current_end)`, split by extracted year/month, summarized,
then the change block. -/
def compute_mom (coll : List RawApt) (year month : ℤ) : MoMComparison :=
  let current_end := if month = 12 then DateTime.midnight (year + 1) 1 1
    else DateTime.midnight year (month + 1) 1
  let prev_start := if month = 12 then DateTime.midnight year 11 1
    else if month = 1 then DateTime.midnight (year - 1) 12 1
    else DateTime.midnight year (month - 1) 1
  let df := _load_dataframe coll prev_start current_end
  let current_df := if df.isEmpty then df
    else df.filter fun a => decide (a.createdAt.year = year ∧ a.createdAt.month = month)
  let prev_month := if month = 1 then (12 : ℤ) else month - 1
  let prev_year := if month = 1 then year - 1 else year
  let prev_df := if df.isEmpty then df
    else df.filter fun a => decide (a.createdAt.year = prev_year ∧ a.createdAt.month = prev_month)
  let current_summary := _summarize current_df (month_period year month)
  let prev_summary := _summarize prev_df (month_period prev_year prev_month)
  let ch := compute_changes current_summary.total_count prev_summary.total_count
    current_summary.cancellation_rate prev_summary.cancellation_rate
  { current_month := current_summary
    previous_month := prev_summary
    count_change := ch.count_change
    count_change_percent := ch.count_pct
    cancellation_rate_change := ch.rate_change }

/-- Model of `analytics.models.YoYComparison`. -/
structure YoYComparison where
  current_year : AppointmentSummary
  previous_year : AppointmentSummary
  count_change : ℤ
  count_change_percent : ℚ
  cancellation_rate_change : ℚ
deriving DecidableEq

/-- The body of `compute_yoy` once the two ranges and period labels are fixed:
two separate loads, two summaries, then the change block. -/
def yoy_of_ranges (coll : List RawApt) (cs ce ps pe : DateTime)
    (current_period prev_period : String) : YoYComparison :=
  let current_df := _load_dataframe coll cs ce
  let prev_df := _load_dataframe coll ps pe
  let current_summary := _summarize current_df current_period
  let prev_summary := _summarize prev_df prev_period
  let ch := compute_changes current_summary.total_count prev_summary.total_count
    current_summary.cancellation_rate prev_summary.cancellation_rate
  { current_year := current_summary
    previous_year := prev_summary
    count_change := ch.count_change
    count_change_percent := ch.count_pct
    cancellation_rate_change := ch.rate_change }

/-- Model of `AnalyticsService.compute_yoy`.  The Python guard `if month:` takes the
monthly branch only when `month` is neither `None` nor `0`. -/
def compute_yoy (coll : List RawApt) (year : ℤ) (month : Option ℤ) : YoYComparison :=
  match month with
  | some m =>
    if m = 0 then
      yoy_of_ranges coll (DateTime.midnight year 1 1) (DateTime.midnight (year + 1) 1 1)
        (DateTime.midnight (year - 1) 1 1) (DateTime.midnight year 1 1)
        (toString year) (toString (year - 1))
    else
      yoy_of_ranges coll (DateTime.midnight year m 1)
        (if m = 12 then DateTime.midnight (year + 1) 1 1 else DateTime.midnight year (m + 1) 1)
        (DateTime.midnight (year - 1) m 1)
        (if m = 12 then DateTime.midnight year 1 1 else DateTime.midnight (year - 1) (m + 1) 1)
        (month_period year m) (month_period (year - 1) m)
  | none =>
    yoy_of_ranges coll (DateTime.midnight year 1 1) (DateTime.midnight (year + 1) 1 1)
      (DateTime.midnight (year - 1) 1 1) (DateTime.midnight year 1 1)
      (toString year) (toString (year - 1))

/-- One row of `get_daily_breakdown`. -/
structure DailyRow where
  date : Date
  total : ℤ
  cancelled : ℤ
  completed : ℤ
  cancellation_rate : ℚ
deriving DecidableEq

/-- Model of `AnalyticsService.get_daily_breakdown`: group the loaded rows by
`createdAt.date()`, aggregate, and sort by date ascending. -/
def get_daily_breakdown (coll : List RawApt) (s e : DateTime) : List DailyRow :=
  let df := _load_dataframe coll s e
  if df.isEmpty then []
  else
    let dates := (df.map fun a => a.createdAt.date).dedup
    (List.insertionSort Date.Le dates).map fun d =>
      let g := df.filter fun a => decide (a.createdAt.date = d)
      let total : ℤ := g.length
      let cancelled : ℤ := (g.filter (·.isCancelled)).length
      { date := d, total := total, cancelled := cancelled,
        completed := total - cancelled,
        cancellation_rate := round2 (if 0 < total then (cancelled : ℚ) / (total : ℚ) * 100 else 0) }

/-- One row of `get_monthly_trend`. -/
structure MonthlyRow where
  month : ℤ
  total : ℤ
  cancelled : ℤ
  completed : ℤ
  cancellation_rate : ℚ
deriving DecidableEq

/-- Model of `AnalyticsService.get_monthly_trend`: load the calendar year, group by
`createdAt.month()`, aggregate, and sort by month ascending. -/
def get_monthly_trend (coll : List RawApt) (year : ℤ) : List MonthlyRow :=
  let df := _load_dataframe coll (DateTime.midnight year 1 1) (DateTime.midnight (year + 1) 1 1)
  if df.isEmpty then []
  else
    let months := (df.map fun a => a.createdAt.month).dedup
    (List.insertionSort (fun a b : ℤ => a ≤ b) months).map fun m =>
      let g := df.filter fun a => decide (a.createdAt.month = m)
      let total : ℤ := g.length
      let cancelled : ℤ := (g.filter (·.isCancelled)).length
      { month := m, total := total, cancelled := cancelled,
        completed := total - cancelled,
        cancellation_rate := round2 (if 0 < total then (cancelled : ℚ) / (total : ℚ) * 100 else 0) }

/-- The cache-relevant part of `analytics.config.Settings`, with its default
values. -/
structure Settings where
  cache_maxsize : ℤ := 256
  cache_ttl_closed : ℤ := 86400
  cache_ttl_open : ℤ := 120
deriving DecidableEq

/-- Model of `Settings()` with no environment overrides. -/
def settings_default : Settings := {}

/-- Model of `analytics.cache._ttu`: per-item time-to-use.  `now_wall` models
`datetime.now(tz=entry.end_date.tzinfo)` at evaluation time and `now` the
monotonic timer value the cache passes at insertion. -/
def ttu (s : Settings) (entry_end_date now_wall : DateTime) (now : ℚ) : ℚ :=
  if DateTime.Lt entry_end_date now_wall then now + (s.cache_ttl_closed : ℚ)
  else now + (s.cache_ttl_open : ℚ)

/-- A row of the metric engine's dataframe, restricted to the columns read by
the atomics `_total` and `_cancelled`. -/
structure MetricRow where
  isCancelled : Bool
  cancelReason : Option String
deriving DecidableEq

/-- Model of `metrics.base._is_customer_cancel`:
`(pl.col("isCancelled") == True) & (pl.col("cancelReason") == "CUSTOMER_CANCEL")`.
A null `cancelReason` compares unequal (in Polars the null propagates and the
`when` guard then selects the `otherwise(0)` branch). -/
def is_customer_cancel (r : MetricRow) : Bool :=
  (r.isCancelled == true) && (r.cancelReason == some "CUSTOMER_CANCEL")

/-- The `_total` atomic: `pl.len()`. -/
def atomic_total (df : List MetricRow) : ℤ := df.length

/-- The `_cancelled` atomic:
`pl.when(_is_customer_cancel).then(1).otherwise(0).sum()`. -/
def atomic_cancelled (df : List MetricRow) : ℤ :=
  (df.map fun r => if is_customer_cancel r then (1 : ℤ) else 0).sum

/-- Model of `analytics.models.CancelReasonType`. -/
inductive CancelReasonType
  | CUSTOMER_CANCEL
  | NO_REASON
deriving DecidableEq

/-- The string value of each `CancelReasonType` enum member. -/
def CancelReasonType.value : CancelReasonType → String
  | .CUSTOMER_CANCEL => "CustomerCancel"
  | .NO_REASON => "NoReason"

/-- A customer row (`_id`, `name`, `surname`). -/
structure Customer where
  id : String
  name : String
  surname : String
deriving DecidableEq

/-- Modelled from the spec: the repository appointment row consumed by the
insights service.  Spec §6 (`fetchAppointments`) rows carry the attendee id
and the start timestamp; the service reads the `attendee.id` and `start`
columns of the fetched window. -/
structure InsApt where
  attendee_id : String
  start : DateTime
deriving DecidableEq

/-- Polars `max` over the `start` column of a group. -/
def max_start (l : List InsApt) : Option DateTime :=
  l.foldl (fun acc a =>
    match acc with
    | none => some a.start
    | some b => some (if DateTime.Le b a.start then a.start else b)) none

/-- One row of the `freq` frame: `group_by("attendee.id")` with appointment
count and latest start. -/
structure FreqRow where
  attendee_id : String
  total_appointments : ℤ
  last_appointment : Option DateTime
deriving DecidableEq

/-- The `freq` frame of `get_inactive_customers`: per distinct attendee id,
the appointment count and the most recent start. -/
def freq (apts : List InsApt) : List FreqRow :=
  ((apts.map fun a => a.attendee_id).dedup).map fun aid =>
    let g := apts.filter fun a => a.attendee_id == aid
    { attendee_id := aid, total_appointments := (g.length : ℤ),
      last_appointment := max_start g }

/-- One row of the joined frame (`customers ⟕ freq` with `fill_null(0)`). -/
structure JoinedRow where
  id : String
  name : String
  surname : String
  total_appointments : ℤ
  last_appointment : Option DateTime
deriving DecidableEq

/-- The left join `customers ⟕ freq` on `_id = attendee.id`, followed by
`fill_null(0)` on the count column.  The right keys are pairwise distinct by
construction of `freq`, so each customer matches at most one row. -/
def left_join (customers : List Customer) (f : List FreqRow) : List JoinedRow :=
  customers.map fun c =>
    match f.find? (fun r => r.attendee_id == c.id) with
    | some r => { id := c.id, name := c.name, surname := c.surname,
                  total_appointments := r.total_appointments,
                  last_appointment := r.last_appointment }
    | none => { id := c.id, name := c.name, surname := c.surname,
                total_appointments := 0, last_appointment := none }

/-- Polars `quantile(q, interpolation="nearest")` picks the sorted element at
index `round(q * (n - 1))` (Rust `f64::round`, ties away from zero; at
`q = 0.25` the operand is nonnegative, so ties round up, which is `round`). -/
def quantile_nearest_idx (n : ℕ) : ℕ := (round (((n : ℚ) - 1) / 4)).toNat

/-- Polars `quantile(0.25, interpolation="nearest")` over an integer column
(total order, no nulls).  Junk value `0` for the empty column, on which the
service raises instead. -/
def quantile25_nearest (counts : List ℤ) : ℤ :=
  (List.insertionSort (fun a b : ℤ => a ≤ b) counts).getD (quantile_nearest_idx counts.length) 0

/-- Null-first order on optional timestamps, as in the Polars default
`nulls_last=False`. -/
def optLe : Option DateTime → Option DateTime → Prop
  | none, _ => True
  | some _, none => False
  | some x, some y => DateTime.Le x y

instance : DecidableRel optLe := fun a b =>
  match a, b with
  | none, _ => isTrue True.intro
  | some _, none => isFalse fun h => h
  | some x, some y => inferInstanceAs (Decidable (DateTime.Le x y))

/-- The key order of `sort("total_appointments", "last_appointment")`:
ascending count, then ascending last start with nulls first. -/
def JoinedRow.Le (a b : JoinedRow) : Prop :=
  a.total_appointments < b.total_appointments ∨
    (a.total_appointments = b.total_appointments ∧
      optLe a.last_appointment b.last_appointment)

instance : DecidableRel JoinedRow.Le := fun a b => by
  unfold JoinedRow.Le; infer_instance

/-- Model of `analytics.models.InactiveCustomerItem`. -/
structure InactiveCustomerItem where
  id : String
  name : String
  surname : String
  total_appointments : ℤ
  last_appointment : Option String
deriving DecidableEq

/-- Zero-padded four-digit rendering, for `%Y`. -/
def pad4 (n : ℤ) : String :=
  if 0 ≤ n ∧ n < 10 then "000" ++ toString n
  else if 0 ≤ n ∧ n < 100 then "00" ++ toString n
  else if 0 ≤ n ∧ n < 1000 then "0" ++ toString n
  else toString n

/-- Model of `strftime("%Y-%m-%d")`. -/
def fmt_ymd (t : DateTime) : String :=
  pad4 t.year ++ "-" ++ pad2 t.month ++ "-" ++ pad2 t.day

/-- Conversion of a joined row to an `InactiveCustomerItem`. -/
def to_item (r : JoinedRow) : InactiveCustomerItem :=
  { id := r.id, name := r.name, surname := r.surname,
    total_appointments := r.total_appointments,
    last_appointment := r.last_appointment.map fmt_ymd }

/-- Model of `analytics.models.InactiveCustomersResponse`.  The `period` field, rendered
from the wall clock, is not modelled: the embedded service takes the fetched
window as input. -/
structure InactiveCustomersResponse where
  threshold : ℤ
  total_customers : ℤ
  inactive_count : ℤ
  customers : List InactiveCustomerItem
deriving DecidableEq

/-- The joined-and-filled frame `result` of `get_inactive_customers`. -/
def inactive_joined (customers : List Customer) (apts : List InsApt) : List JoinedRow :=
  left_join customers (freq apts)

/-- The filtered, sorted and truncated rows of `get_inactive_customers`,
before item conversion. -/
def inactive_rows (customers : List Customer) (apts : List InsApt) (limit : ℕ) : List JoinedRow :=
  let result := inactive_joined customers apts
  let threshold := quantile25_nearest (result.map (·.total_appointments))
  (List.insertionSort JoinedRow.Le
    (result.filter fun r => decide (r.total_appointments ≤ threshold))).take limit

/-- Model of `InsightsService.get_inactive_customers` over an already-fetched window of
appointments.  Returns `none` for an empty customer set, where the Python code
raises (`int(None)` after the quantile of an empty column). -/
def get_inactive_customers (customers : List Customer) (apts : List InsApt)
    (limit : ℕ) : Option InactiveCustomersResponse :=
  if customers.isEmpty then none
  else
    let result := inactive_joined customers apts
    let threshold := quantile25_nearest (result.map (·.total_appointments))
    let rows := inactive_rows customers apts limit
    some { threshold := threshold
           total_customers := (result.length : ℤ)
           inactive_count := (rows.length : ℤ)
           customers := rows.map to_item }

/-! ## Order facts and small helper lemmas -/

theorem dateTime_le_trans {a b c : DateTime} (h : DateTime.Le a b) (h' : DateTime.Le b c) :
    DateTime.Le a c := by
  unfold DateTime.Le at *; omega

theorem dateTime_le_total (a b : DateTime) : DateTime.Le a b ∨ DateTime.Le b a := by
  unfold DateTime.Le; omega

theorem date_le_trans {a b c : Date} (h : Date.Le a b) (h' : Date.Le b c) :
    Date.Le a c := by
  unfold Date.Le at *; omega

theorem date_le_total (a b : Date) : Date.Le a b ∨ Date.Le b a := by
  unfold Date.Le; omega

instance : IsTrans Date Date.Le := ⟨fun _ _ _ => date_le_trans⟩

instance : IsTotal Date Date.Le := ⟨date_le_total⟩

theorem optLe_trans {a b c : Option DateTime} (h : optLe a b) (h' : optLe b c) :
    optLe a c := by
  cases a <;> cases b <;> cases c <;> simp [optLe] at *
  exact dateTime_le_trans h h'

theorem optLe_total (a b : Option DateTime) : optLe a b ∨ optLe b a := by
  cases a <;> cases b <;> simp [optLe]
  exact dateTime_le_total _ _

instance : IsTrans JoinedRow JoinedRow.Le := by
  constructor
  intro a b c hab hbc
  unfold JoinedRow.Le at *
  rcases hab with h | ⟨he, ho⟩ <;> rcases hbc with h' | ⟨he', ho'⟩
  · exact Or.inl (by omega)
  · exact Or.inl (by omega)
  · exact Or.inl (by omega)
  · exact Or.inr ⟨by omega, optLe_trans ho ho'⟩

instance : IsTotal JoinedRow JoinedRow.Le := by
  constructor
  intro a b
  unfold JoinedRow.Le
  rcases lt_trichotomy a.total_appointments b.total_appointments with hc | hc | hc
  · exact Or.inl (Or.inl hc)
  · rcases optLe_total a.last_appointment b.last_appointment with h | h
    · exact Or.inl (Or.inr ⟨hc, h⟩)
    · exact Or.inr (Or.inr ⟨hc.symm, h⟩)
  · exact Or.inr (Or.inl hc)

theorem if_isEmpty_filter {α : Type} (l : List α) (p : α → Bool) :
    (if l.isEmpty then l else l.filter p) = l.filter p := by
  cases l <;> simp

/-! ## Spec-side definitions (stated from the specification's words, for
comparison against the embedded code) -/

/-- Spec: the first day of the month after `(y, m)`, rolling December into
January of the next year. -/
def specNextMonthStart (y m : ℤ) : DateTime :=
  if m = 12 then DateTime.midnight (y + 1) 1 1 else DateTime.midnight y (m + 1) 1

/-- Spec: the `(year, month)` pair of the calendar month immediately preceding
`(y, m)`, rolling January back into December of the previous year. -/
def specPrevMonth (y m : ℤ) : ℤ × ℤ :=
  if m = 1 then (y - 1, 12) else (y, m - 1)

/-- Spec: percent change is null/absent when the baseline is exactly zero,
otherwise `round((current - previous) / previous * 100, 2)`. -/
def specPctChange (curr prev : ℤ) : Option ℚ :=
  if prev = 0 then none
  else some (round2 (((curr : ℚ) - (prev : ℚ)) / (prev : ℚ) * 100))

/-! ## Claims -/

/-- Claim C3: for every input batch, `_summarize` satisfies
`completed_count = total_count - cancelled_count`, and `cancellation_rate`
equals `round(cancelled / total * 100, 2)` when `total > 0` and `0.0` when
`total = 0`; the empty batch yields the all-zero summary rather than an
error. -/
theorem summarize_invariants (df : List Apt) (period : String) :
    (_summarize df period).completed_count
      = (_summarize df period).total_count - (_summarize df period).cancelled_count
    ∧ (0 < (_summarize df period).total_count →
        (_summarize df period).cancellation_rate
          = round2 (((_summarize df period).cancelled_count : ℚ)
              / ((_summarize df period).total_count : ℚ) * 100))
    ∧ ((_summarize df period).total_count = 0 →
        (_summarize df period).cancellation_rate = 0)
    ∧ (df = [] →
        _summarize df period
          = { period := period, total_count := 0, cancelled_count := 0,
              completed_count := 0, cancellation_rate := 0 }) := by
  cases df with
  | nil => simp [_summarize]
  | cons a l =>
    have htot : (0 : ℤ) < ((a :: l).length : ℤ) := by
      simp only [List.length_cons]; positivity
    refine ⟨?_, ?_, ?_, ?_⟩
    · simp [_summarize]
    · intro _
      simp only [_summarize, List.isEmpty_cons, if_neg, Bool.false_eq_true,
        not_false_eq_true, if_pos htot]
    · intro h
      simp only [_summarize, List.isEmpty_cons, Bool.false_eq_true, if_false] at h
      omega
    · intro h; exact absurd h (List.cons_ne_nil a l)

/-- Witness for C3 at a concrete two-record batch with one cancelled record. -/
theorem summarize_invariants_witness :
    (_summarize [⟨"a", DateTime.midnight 2024 1 2, DateTime.midnight 2024 1 2, true,
        DateTime.midnight 2024 1 2⟩,
      ⟨"b", DateTime.midnight 2024 1 3, DateTime.midnight 2024 1 3, false,
        DateTime.midnight 2024 1 3⟩] "2024-01").completed_count = 1
    ∧ (_summarize [⟨"a", DateTime.midnight 2024 1 2, DateTime.midnight 2024 1 2, true,
        DateTime.midnight 2024 1 2⟩,
      ⟨"b", DateTime.midnight 2024 1 3, DateTime.midnight 2024 1 3, false,
        DateTime.midnight 2024 1 3⟩] "2024-01").cancellation_rate = round2 ((1 : ℚ) / 2 * 100) := by
  have h := summarize_invariants
    [⟨"a", DateTime.midnight 2024 1 2, DateTime.midnight 2024 1 2, true,
        DateTime.midnight 2024 1 2⟩,
      ⟨"b", DateTime.midnight 2024 1 3, DateTime.midnight 2024 1 3, false,
        DateTime.midnight 2024 1 3⟩] "2024-01"
  refine ⟨?_, ?_⟩
  · have h1 := h.1
    have ht : (_summarize [⟨"a", DateTime.midnight 2024 1 2, DateTime.midnight 2024 1 2, true,
        DateTime.midnight 2024 1 2⟩,
      ⟨"b", DateTime.midnight 2024 1 3, DateTime.midnight 2024 1 3, false,
        DateTime.midnight 2024 1 3⟩] "2024-01").total_count = 2 := by decide
    have hc : (_summarize [⟨"a", DateTime.midnight 2024 1 2, DateTime.midnight 2024 1 2, true,
        DateTime.midnight 2024 1 2⟩,
      ⟨"b", DateTime.midnight 2024 1 3, DateTime.midnight 2024 1 3, false,
        DateTime.midnight 2024 1 3⟩] "2024-01").cancelled_count = 1 := by decide
    rw [h1, ht, hc]; norm_num
  · have h2 := h.2.1 (by decide)
    rw [h2]
    have ht : (_summarize [⟨"a", DateTime.midnight 2024 1 2, DateTime.midnight 2024 1 2, true,
        DateTime.midnight 2024 1 2⟩,
      ⟨"b", DateTime.midnight 2024 1 3, DateTime.midnight 2024 1 3, false,
        DateTime.midnight 2024 1 3⟩] "2024-01").total_count = 2 := by decide
    have hc : (_summarize [⟨"a", DateTime.midnight 2024 1 2, DateTime.midnight 2024 1 2, true,
        DateTime.midnight 2024 1 2⟩,
      ⟨"b", DateTime.midnight 2024 1 3, DateTime.midnight 2024 1 3, false,
        DateTime.midnight 2024 1 3⟩] "2024-01").cancelled_count = 1 := by decide
    rw [ht, hc]; norm_num

/-- Claim C6: the cache's per-item time-to-use is insertion time plus the
closed-period TTL when the entry's `end_date` is strictly before the current
instant, and insertion time plus the open-period TTL when it is at or after
the current instant; the defaults are 86400 s and 120 s. -/
theorem ttu_period_selection (s : Settings) (end_date now_wall : DateTime) (now : ℚ) :
    (DateTime.Lt end_date now_wall →
      ttu s end_date now_wall now = now + (s.cache_ttl_closed : ℚ))
    ∧ (DateTime.Le now_wall end_date →
      ttu s end_date now_wall now = now + (s.cache_ttl_open : ℚ))
    ∧ settings_default.cache_ttl_closed = 86400
    ∧ settings_default.cache_ttl_open = 120 := by
  refine ⟨fun h => by rw [ttu, if_pos h], fun h => ?_, rfl, rfl⟩
  rw [ttu, if_neg]
  unfold DateTime.Le at h
  unfold DateTime.Lt
  omega

/-- Witness for C6: a period ending 2024-06-30 23:59:59 is closed at
2024-07-15 and still open at 2024-06-01, with the default TTLs. -/
theorem ttu_period_selection_witness :
    ttu settings_default ⟨2024, 6, 30, 86399000000⟩ (DateTime.midnight 2024 7 15) 1000
      = 1000 + (86400 : ℚ)
    ∧ ttu settings_default ⟨2024, 6, 30, 86399000000⟩ (DateTime.midnight 2024 6 1) 1000
      = 1000 + (120 : ℚ) :=
  ⟨(ttu_period_selection settings_default ⟨2024, 6, 30, 86399000000⟩
      (DateTime.midnight 2024 7 15) 1000).1 (by decide),
   (ttu_period_selection settings_default ⟨2024, 6, 30, 86399000000⟩
      (DateTime.midnight 2024 6 1) 1000).2.1 (by decide)⟩

/-- Claim C9: the customer-cancel predicate compares `cancelReason` against the
literal `"CUSTOMER_CANCEL"`, which equals neither `CancelReasonType` enum
value (`"CustomerCancel"`, `"NoReason"`), so it is false on every record whose
reason is an enum value and the `_cancelled` atomic counts zero such
records. -/
theorem customer_cancel_predicate_misses_enum :
    (∀ (r : MetricRow) (c : CancelReasonType),
      r.cancelReason = some c.value → is_customer_cancel r = false)
    ∧ ∀ df : List MetricRow,
        (∀ r ∈ df, ∃ c : CancelReasonType, r.cancelReason = some c.value) →
        atomic_cancelled df = 0 := by
  have hpt : ∀ (r : MetricRow) (c : CancelReasonType),
      r.cancelReason = some c.value → is_customer_cancel r = false := by
    intro r c h
    cases c <;>
      simp [is_customer_cancel, h, CancelReasonType.value]
  refine ⟨hpt, ?_⟩
  intro df h
  induction df with
  | nil => rfl
  | cons a l ih =>
    obtain ⟨c, hc⟩ := h a (List.mem_cons_self a l)
    have hrest := ih fun r hr => h r (List.mem_cons_of_mem a hr)
    simp only [atomic_cancelled, List.map_cons, List.sum_cons, hpt a c hc,
      Bool.false_eq_true, if_false]
    simpa [atomic_cancelled] using hrest

/-- Witness for C9: a record cancelled with the enum reason `"CustomerCancel"`
is not counted by the `_cancelled` atomic. -/
theorem customer_cancel_predicate_misses_enum_witness :
    is_customer_cancel ⟨true, some "CustomerCancel"⟩ = false
    ∧ atomic_cancelled [⟨true, some "CustomerCancel"⟩, ⟨true, some "NoReason"⟩] = 0 :=
  ⟨customer_cancel_predicate_misses_enum.1 ⟨true, some "CustomerCancel"⟩
      CancelReasonType.CUSTOMER_CANCEL rfl,
   customer_cancel_predicate_misses_enum.2
      [⟨true, some "CustomerCancel"⟩, ⟨true, some "NoReason"⟩]
      (by
        intro r hr
        rw [List.mem_cons] at hr
        rcases hr with h | h
        · exact ⟨CancelReasonType.CUSTOMER_CANCEL, by rw [h]; rfl⟩
        · rw [List.mem_singleton] at h
          exact ⟨CancelReasonType.NO_REASON, by rw [h]; rfl⟩)⟩

/-- A raw appointment cancelled with the non-customer reason `"NoReason"`,
created 2024-01-10. -/
def c2_raw : RawApt :=
  ⟨"a1", DateTime.midnight 2024 1 10, DateTime.midnight 2024 1 10,
    some true, some "NoReason", DateTime.midnight 2024 1 10⟩

/-- Claim C2, counterexample: `_summarize` counts a record cancelled for a
non-customer reason (`"NoReason"`) — its `cancelled_count` is 1, not the 0 the
claim requires for records cancelled for any other reason. -/
theorem summarize_counts_other_reason_cancel :
    (_summarize ([c2_raw].map load_record) "2024-01").cancelled_count = 1
    ∧ c2_raw.cancelReason ≠ some "CUSTOMER_CANCEL" := by
  constructor
  · decide
  · decide

/-- Claim C2, amended: `_summarize` counts a record as cancelled exactly when
its `isCancelled` flag is true; the cancellation reason is not consulted (both
`cancelled_count` and the summary as a whole are invariant under arbitrary
rewrites of `cancelReason`).  The flag-and-reason predicate exists only in the
metric module's `_cancelled` atomic. -/
theorem summarize_cancelled_by_flag_only :
    (∀ (df : List Apt) (period : String),
      (_summarize df period).cancelled_count = ((df.filter (·.isCancelled)).length : ℤ))
    ∧ ∀ (raws : List RawApt) (f : RawApt → Option String) (period : String),
        _summarize ((raws.map fun a => { a with cancelReason := f a }).map load_record) period
          = _summarize (raws.map load_record) period := by
  constructor
  · intro df period
    cases df with
    | nil => simp [_summarize]
    | cons a l => simp [_summarize]
  · intro raws f period
    have : (raws.map fun a => { a with cancelReason := f a }).map load_record
        = raws.map load_record := by
      rw [List.map_map]
      rfl
    rw [this]

/-- A raw appointment created 2024-01-15 with no `isCancelled` field. -/
def c10_raw : RawApt :=
  ⟨"b1", DateTime.midnight 2024 1 15, DateTime.midnight 2024 1 15,
    none, none, DateTime.midnight 2024 1 15⟩

/-- Claim C10: a record lacking the `isCancelled` field is loaded with
`isCancelled = False`, so the cancelled count of any summary over the loaded
dataframe, and of every daily-breakdown row, counts exactly the records whose
raw `isCancelled` field is present and true. -/
theorem load_missing_cancelled_defaults_false :
    (∀ a : RawApt, a.isCancelled = none → (load_record a).isCancelled = false)
    ∧ (∀ (coll : List RawApt) (s e : DateTime) (period : String),
        (_summarize (_load_dataframe coll s e) period).cancelled_count
          = (((find_by_created_at_range coll s e).filter
              fun a => a.isCancelled == some true).length : ℤ))
    ∧ ∀ (coll : List RawApt) (s e : DateTime), ∀ row ∈ get_daily_breakdown coll s e,
        row.cancelled
          = (((find_by_created_at_range coll s e).filter
              fun a => decide (a.createdAt.date = row.date) && (a.isCancelled == some true)).length : ℤ) := by
  have hload : ∀ a : RawApt, (load_record a).isCancelled = (a.isCancelled == some true) := by
    intro a
    cases h : a.isCancelled with
    | none => simp [load_record, h]
    | some b => cases b <;> simp [load_record, h]
  have hfilter : ∀ l : List RawApt,
      (l.map load_record).filter (·.isCancelled)
        = (l.filter fun a => a.isCancelled == some true).map load_record := by
    intro l
    rw [List.filter_map]
    congr 1
    apply List.filter_congr
    intro a _
    simpa using hload a
  refine ⟨?_, ?_, ?_⟩
  · intro a h; simp [load_record, h]
  · intro coll s e period
    unfold _load_dataframe
    cases h : find_by_created_at_range coll s e with
    | nil => simp [_summarize]
    | cons a l =>
      rw [show ((a :: l).map load_record) = (load_record a :: l.map load_record) from rfl]
      simp only [_summarize, List.isEmpty_cons, Bool.false_eq_true, if_false]
      rw [show (load_record a :: l.map load_record) = ((a :: l).map load_record) from rfl,
        hfilter (a :: l), List.length_map]
  · intro coll s e row hrow
    unfold get_daily_breakdown at hrow
    by_cases hemp : (_load_dataframe coll s e).isEmpty
    · simp [hemp] at hrow
    · simp only [hemp, Bool.false_eq_true, if_false, List.mem_map] at hrow
      obtain ⟨d, _, hd⟩ := hrow
      subst hd
      show ((((_load_dataframe coll s e).filter
          fun a => decide (a.createdAt.date = d)).filter (·.isCancelled)).length : ℤ) = _
      rw [show (_load_dataframe coll s e)
          = ((find_by_created_at_range coll s e).map load_record) from rfl,
        List.filter_map, hfilter, List.length_map, List.filter_filter]
      dsimp only
      congr 1
      congr 1
      exact List.filter_congr fun a _ => Bool.and_comm _ _

/-- Zero-baseline and positive-baseline behaviour of the shared change
block. -/
theorem compute_changes_pct (curr prev : ℤ) (cr pr : ℚ) :
    (prev = 0 → (compute_changes curr prev cr pr).count_pct = 0)
    ∧ (0 < prev → (compute_changes curr prev cr pr).count_pct
        = round2 (((curr : ℚ) - (prev : ℚ)) / (prev : ℚ) * 100)) := by
  constructor
  · intro h
    subst h
    simp [compute_changes, round2]
  · intro h
    simp [compute_changes, if_pos h]

theorem yoy_of_ranges_pct (coll : List RawApt) (cs ce ps pe : DateTime) (cp pp : String) :
    ((yoy_of_ranges coll cs ce ps pe cp pp).previous_year.total_count = 0 →
      (yoy_of_ranges coll cs ce ps pe cp pp).count_change_percent = 0)
    ∧ (0 < (yoy_of_ranges coll cs ce ps pe cp pp).previous_year.total_count →
      (yoy_of_ranges coll cs ce ps pe cp pp).count_change_percent
        = round2 ((((yoy_of_ranges coll cs ce ps pe cp pp).current_year.total_count : ℚ)
            - ((yoy_of_ranges coll cs ce ps pe cp pp).previous_year.total_count : ℚ))
            / ((yoy_of_ranges coll cs ce ps pe cp pp).previous_year.total_count : ℚ) * 100)) := by
  constructor
  · intro h
    revert h
    simp only [yoy_of_ranges]
    exact fun h => (compute_changes_pct _ _ _ _).1 h
  · intro h
    revert h
    simp only [yoy_of_ranges]
    exact fun h => (compute_changes_pct _ _ _ _).2 h

/-- A single appointment created 2024-01-15 (December 2023 and year 2023 are
empty). -/
def c1_collA : List RawApt :=
  [⟨"a", DateTime.midnight 2024 1 15, DateTime.midnight 2024 1 15, some false, none,
    DateTime.midnight 2024 1 15⟩]

/-- Claim C1, counterexample: for `compute_mom` over a collection whose previous
month is empty, the previous total count is 0 yet the produced
`count_change_percent` is a present value (`0.0`), not the null/absent value
the claim requires (`specPctChange` is the claim's formula). -/
theorem mom_pct_change_present_at_zero_baseline :
    (compute_mom c1_collA 2024 1).previous_month.total_count = 0
    ∧ some ((compute_mom c1_collA 2024 1).count_change_percent)
        ≠ specPctChange (compute_mom c1_collA 2024 1).current_month.total_count
            (compute_mom c1_collA 2024 1).previous_month.total_count := by
  have hprev : (compute_mom c1_collA 2024 1).previous_month.total_count = 0 := by decide
  refine ⟨hprev, ?_⟩
  rw [hprev]
  simp [specPctChange]

/-- Claim C1, amended: in every comparison produced by `compute_mom` or
`compute_yoy`, if the previous period's total count is zero the percent count
change is `0.0` (division by zero never occurs), and otherwise it equals
`round((current - previous) / previous * 100, 2)`. -/
theorem comparison_pct_change_zero_baseline (coll : List RawApt) (y m : ℤ) (mo : Option ℤ) :
    ((compute_mom coll y m).previous_month.total_count = 0 →
      (compute_mom coll y m).count_change_percent = 0)
    ∧ (0 < (compute_mom coll y m).previous_month.total_count →
      (compute_mom coll y m).count_change_percent
        = round2 ((((compute_mom coll y m).current_month.total_count : ℚ)
            - ((compute_mom coll y m).previous_month.total_count : ℚ))
            / ((compute_mom coll y m).previous_month.total_count : ℚ) * 100))
    ∧ ((compute_yoy coll y mo).previous_year.total_count = 0 →
      (compute_yoy coll y mo).count_change_percent = 0)
    ∧ (0 < (compute_yoy coll y mo).previous_year.total_count →
      (compute_yoy coll y mo).count_change_percent
        = round2 ((((compute_yoy coll y mo).current_year.total_count : ℚ)
            - ((compute_yoy coll y mo).previous_year.total_count : ℚ))
            / ((compute_yoy coll y mo).previous_year.total_count : ℚ) * 100)) := by
  refine ⟨?_, ?_, ?_, ?_⟩
  · intro h
    revert h
    simp only [compute_mom]
    exact fun h => (compute_changes_pct _ _ _ _).1 h
  · intro h
    revert h
    simp only [compute_mom]
    exact fun h => (compute_changes_pct _ _ _ _).2 h
  · intro h
    revert h
    cases mo with
    | none => simp only [compute_yoy]; exact (yoy_of_ranges_pct coll _ _ _ _ _ _).1
    | some mm =>
      by_cases hz : mm = 0 <;>
        simp only [compute_yoy, hz, if_pos, if_neg, if_true, if_false, reduceIte] <;>
        exact (yoy_of_ranges_pct coll _ _ _ _ _ _).1
  · intro h
    revert h
    cases mo with
    | none => simp only [compute_yoy]; exact (yoy_of_ranges_pct coll _ _ _ _ _ _).2
    | some mm =>
      by_cases hz : mm = 0 <;>
        simp only [compute_yoy, hz, if_pos, if_neg, if_true, if_false, reduceIte] <;>
        exact (yoy_of_ranges_pct coll _ _ _ _ _ _).2

/-- Three appointments created in January 2024 and two in December 2023. -/
def c1_collB : List RawApt :=
  [⟨"a", DateTime.midnight 2024 1 5, DateTime.midnight 2024 1 5, some false, none,
    DateTime.midnight 2024 1 5⟩,
   ⟨"b", DateTime.midnight 2024 1 6, DateTime.midnight 2024 1 6, some false, none,
    DateTime.midnight 2024 1 6⟩,
   ⟨"c", DateTime.midnight 2024 1 7, DateTime.midnight 2024 1 7, some false, none,
    DateTime.midnight 2024 1 7⟩,
   ⟨"d", DateTime.midnight 2023 12 5, DateTime.midnight 2023 12 5, some false, none,
    DateTime.midnight 2023 12 5⟩,
   ⟨"e", DateTime.midnight 2023 12 6, DateTime.midnight 2023 12 6, some false, none,
    DateTime.midnight 2023 12 6⟩]

/-- One appointment created in January 2024 and two in March 2023. -/
def c1_collC : List RawApt :=
  [⟨"a", DateTime.midnight 2024 1 5, DateTime.midnight 2024 1 5, some false, none,
    DateTime.midnight 2024 1 5⟩,
   ⟨"b", DateTime.midnight 2023 3 6, DateTime.midnight 2023 3 6, some false, none,
    DateTime.midnight 2023 3 6⟩,
   ⟨"c", DateTime.midnight 2023 3 7, DateTime.midnight 2023 3 7, some false, none,
    DateTime.midnight 2023 3 7⟩]

/-- Witness for the amended C1 at concrete collections: zero baseline gives
`0.0`, positive baseline gives the rounded percent formula. -/
theorem comparison_pct_change_zero_baseline_witness :
    (compute_mom c1_collA 2024 1).count_change_percent = 0
    ∧ (compute_mom c1_collB 2024 1).count_change_percent = round2 (((3 : ℚ) - 2) / 2 * 100)
    ∧ (compute_yoy c1_collA 2024 none).count_change_percent = 0
    ∧ (compute_yoy c1_collC 2024 none).count_change_percent
        = round2 (((1 : ℚ) - 2) / 2 * 100) := by
  refine ⟨(comparison_pct_change_zero_baseline c1_collA 2024 1 none).1 (by decide), ?_,
    (comparison_pct_change_zero_baseline c1_collA 2024 1 none).2.2.1 (by decide), ?_⟩
  · have h := (comparison_pct_change_zero_baseline c1_collB 2024 1 none).2.1 (by decide)
    rw [h, show (compute_mom c1_collB 2024 1).current_month.total_count = 3 from by decide,
      show (compute_mom c1_collB 2024 1).previous_month.total_count = 2 from by decide]
    norm_num
  · have h := (comparison_pct_change_zero_baseline c1_collC 2024 1 none).2.2.2 (by decide)
    rw [h, show (compute_yoy c1_collC 2024 none).current_year.total_count = 1 from by decide,
      show (compute_yoy c1_collC 2024 none).previous_year.total_count = 2 from by decide]
    norm_num

/-- Witness for C10: a record without the `isCancelled` field loads as not
cancelled and is not counted. -/
theorem load_missing_cancelled_defaults_false_witness :
    (load_record c10_raw).isCancelled = false
    ∧ (_summarize (_load_dataframe [c10_raw] (DateTime.midnight 2024 1 1)
        (DateTime.midnight 2024 2 1)) "2024-01").cancelled_count = 0 := by
  refine ⟨load_missing_cancelled_defaults_false.1 c10_raw rfl, ?_⟩
  rw [load_missing_cancelled_defaults_false.2.1 [c10_raw] (DateTime.midnight 2024 1 1)
    (DateTime.midnight 2024 2 1) "2024-01"]
  decide

/-- Claim C5: `compute_yoy` with `month` omitted compares the full calendar year
`[Jan 1 y, Jan 1 (y+1))` against the full prior calendar year; with a valid
month given it compares `[⟨y,m,1⟩, next month)` against the same month one
year prior, whose range ends at `Jan 1 y` when `m = 12`. -/
theorem yoy_calendar_ranges (coll : List RawApt) (y : ℤ) :
    ((compute_yoy coll y none).current_year
      = _summarize (_load_dataframe coll (DateTime.midnight y 1 1)
          (DateTime.midnight (y + 1) 1 1)) (toString y))
    ∧ ((compute_yoy coll y none).previous_year
      = _summarize (_load_dataframe coll (DateTime.midnight (y - 1) 1 1)
          (DateTime.midnight y 1 1)) (toString (y - 1)))
    ∧ ∀ m : ℤ, 1 ≤ m → m ≤ 12 →
      ((compute_yoy coll y (some m)).current_year
        = _summarize (_load_dataframe coll (DateTime.midnight y m 1) (specNextMonthStart y m))
            (month_period y m))
      ∧ ((compute_yoy coll y (some m)).previous_year
        = _summarize (_load_dataframe coll (DateTime.midnight (y - 1) m 1)
            (if m = 12 then DateTime.midnight y 1 1 else DateTime.midnight (y - 1) (m + 1) 1))
            (month_period (y - 1) m)) := by
  refine ⟨rfl, rfl, ?_⟩
  intro m hm1 hm2
  have hz : ¬ m = 0 := by omega
  simp only [compute_yoy, if_neg hz, specNextMonthStart]
  exact ⟨rfl, rfl⟩

/-- Witness for C5: December 2024 compares against December 2023 with the
previous range ending at January 1, 2024. -/
theorem yoy_calendar_ranges_witness :
    (compute_yoy c1_collC 2024 (some 12)).previous_year
      = _summarize (_load_dataframe c1_collC (DateTime.midnight 2023 12 1)
          (DateTime.midnight 2024 1 1)) (month_period 2023 12) := by
  have h := ((yoy_calendar_ranges c1_collC 2024).2.2 12 (by norm_num) (by norm_num)).2
  simpa using h

/-- Claim C7: the daily breakdown and the monthly trend return one row per
period actually present in the loaded data (no synthetic zero-filled rows),
sorted ascending by period, and the empty batch yields the empty series. -/
theorem breakdown_periods_present_sorted (coll : List RawApt) (s e : DateTime) (y : ℤ) :
    List.Sorted Date.Le ((get_daily_breakdown coll s e).map (·.date))
    ∧ ((get_daily_breakdown coll s e).map (·.date)).Nodup
    ∧ (∀ d : Date, d ∈ (get_daily_breakdown coll s e).map (·.date)
        ↔ d ∈ (_load_dataframe coll s e).map fun a => a.createdAt.date)
    ∧ (_load_dataframe coll s e = [] → get_daily_breakdown coll s e = [])
    ∧ List.Sorted (fun a b : ℤ => a ≤ b) ((get_monthly_trend coll y).map (·.month))
    ∧ ((get_monthly_trend coll y).map (·.month)).Nodup
    ∧ (∀ mo : ℤ, mo ∈ (get_monthly_trend coll y).map (·.month)
        ↔ mo ∈ (_load_dataframe coll (DateTime.midnight y 1 1)
            (DateTime.midnight (y + 1) 1 1)).map fun a => a.createdAt.month)
    ∧ (_load_dataframe coll (DateTime.midnight y 1 1) (DateTime.midnight (y + 1) 1 1) = []
        → get_monthly_trend coll y = []) := by
  have hdates : (get_daily_breakdown coll s e).map (·.date)
      = if (_load_dataframe coll s e).isEmpty then []
        else List.insertionSort Date.Le
          ((_load_dataframe coll s e).map fun a => a.createdAt.date).dedup := by
    unfold get_daily_breakdown
    by_cases h : (_load_dataframe coll s e).isEmpty <;>
      simp [h, List.map_map, Function.comp_def]
  have hmonths : (get_monthly_trend coll y).map (·.month)
      = if (_load_dataframe coll (DateTime.midnight y 1 1)
            (DateTime.midnight (y + 1) 1 1)).isEmpty then []
        else List.insertionSort (fun a b : ℤ => a ≤ b)
          ((_load_dataframe coll (DateTime.midnight y 1 1)
            (DateTime.midnight (y + 1) 1 1)).map fun a => a.createdAt.month).dedup := by
    unfold get_monthly_trend
    by_cases h : (_load_dataframe coll (DateTime.midnight y 1 1)
        (DateTime.midnight (y + 1) 1 1)).isEmpty <;>
      simp [h, List.map_map, Function.comp_def]
  refine ⟨?_, ?_, ?_, ?_, ?_, ?_, ?_, ?_⟩
  · rw [hdates]
    by_cases h : (_load_dataframe coll s e).isEmpty <;> simp [h]
    exact List.sorted_insertionSort Date.Le _
  · rw [hdates]
    by_cases h : (_load_dataframe coll s e).isEmpty <;> simp [h]
    exact ((List.perm_insertionSort Date.Le _).nodup_iff).mpr (List.nodup_dedup _)
  · intro d
    rw [hdates]
    by_cases h : (_load_dataframe coll s e).isEmpty
    · rw [List.isEmpty_iff] at h
      simp [h]
    · simp [h, List.mem_dedup]
  · intro h
    unfold get_daily_breakdown
    rw [h]
    rfl
  · rw [hmonths]
    by_cases h : (_load_dataframe coll (DateTime.midnight y 1 1)
        (DateTime.midnight (y + 1) 1 1)).isEmpty <;> simp [h]
    exact List.sorted_insertionSort _ _
  · rw [hmonths]
    by_cases h : (_load_dataframe coll (DateTime.midnight y 1 1)
        (DateTime.midnight (y + 1) 1 1)).isEmpty <;> simp [h]
    exact ((List.perm_insertionSort _ _).nodup_iff).mpr (List.nodup_dedup _)
  · intro mo
    rw [hmonths]
    by_cases h : (_load_dataframe coll (DateTime.midnight y 1 1)
        (DateTime.midnight (y + 1) 1 1)).isEmpty
    · rw [List.isEmpty_iff] at h
      simp [h]
    · simp [h, List.mem_dedup]
  · intro h
    unfold get_monthly_trend
    rw [h]
    rfl

/-- Witness for C7: the empty batch yields empty series from both grouped
endpoints. -/
theorem breakdown_periods_present_sorted_witness :
    get_daily_breakdown [] (DateTime.midnight 2024 1 1) (DateTime.midnight 2024 2 1) = []
    ∧ get_monthly_trend [] 2024 = [] :=
  ⟨(breakdown_periods_present_sorted [] (DateTime.midnight 2024 1 1)
      (DateTime.midnight 2024 2 1) 2024).2.2.2.1 rfl,
   (breakdown_periods_present_sorted [] (DateTime.midnight 2024 1 1)
      (DateTime.midnight 2024 2 1) 2024).2.2.2.2.2.2.2 rfl⟩

/-- Splitting the combined MoM window by extracted year/month recovers the
current calendar month's range, for valid timestamps. -/
theorem mom_current_filter (coll : List RawApt) (y m : ℤ) ( _hm1 : 1 ≤ m) ( _hm2 : m ≤ 12)
    (hv : ∀ a ∈ coll, a.createdAt.Valid) :
    (_load_dataframe coll
        (if m = 12 then DateTime.midnight y 11 1
         else if m = 1 then DateTime.midnight (y - 1) 12 1
         else DateTime.midnight y (m - 1) 1)
        (if m = 12 then DateTime.midnight (y + 1) 1 1 else DateTime.midnight y (m + 1) 1)).filter
      (fun a => decide (a.createdAt.year = y ∧ a.createdAt.month = m))
    = _load_dataframe coll (DateTime.midnight y m 1) (specNextMonthStart y m) := by
  unfold _load_dataframe find_by_created_at_range specNextMonthStart
  rw [List.filter_map, List.filter_filter]
  congr 1
  apply List.filter_congr
  intro a ha
  have hva := hv a ha
  unfold DateTime.Valid at hva
  rw [Function.comp_apply, ← Bool.decide_and, decide_eq_decide]
  simp only [load_record]
  unfold DateTime.Le DateTime.Lt
  split_ifs with h12 h1 <;> unfold DateTime.midnight <;> dsimp only <;> omega

/-- Splitting the combined MoM window by extracted year/month recovers the
immediately preceding calendar month's range, for valid timestamps. -/
theorem mom_prev_filter (coll : List RawApt) (y m : ℤ) ( _hm1 : 1 ≤ m) ( _hm2 : m ≤ 12)
    (hv : ∀ a ∈ coll, a.createdAt.Valid) :
    (_load_dataframe coll
        (if m = 12 then DateTime.midnight y 11 1
         else if m = 1 then DateTime.midnight (y - 1) 12 1
         else DateTime.midnight y (m - 1) 1)
        (if m = 12 then DateTime.midnight (y + 1) 1 1 else DateTime.midnight y (m + 1) 1)).filter
      (fun a => decide (a.createdAt.year = (if m = 1 then y - 1 else y)
         ∧ a.createdAt.month = (if m = 1 then (12 : ℤ) else m - 1)))
    = _load_dataframe coll
        (DateTime.midnight (specPrevMonth y m).1 (specPrevMonth y m).2 1)
        (DateTime.midnight y m 1) := by
  unfold _load_dataframe find_by_created_at_range specPrevMonth
  rw [List.filter_map, List.filter_filter]
  congr 1
  apply List.filter_congr
  intro a ha
  have hva := hv a ha
  unfold DateTime.Valid at hva
  rw [Function.comp_apply, ← Bool.decide_and, decide_eq_decide]
  simp only [load_record]
  unfold DateTime.Le DateTime.Lt
  split_ifs with h12 h1 <;> unfold DateTime.midnight <;> dsimp only <;> omega

/-- Claim C4: for a valid `(year, month)` and valid record timestamps,
`compute_mom`'s current summary is over the range from the first day of
`(year, month)` inclusive to the first day of the next month exclusive, and
its previous summary is over the immediately preceding calendar month, with
the January case rolling back into December of the previous year. -/
theorem mom_calendar_ranges (coll : List RawApt) (y m : ℤ)
    (hm1 : 1 ≤ m) (hm2 : m ≤ 12) (hv : ∀ a ∈ coll, a.createdAt.Valid) :
    (compute_mom coll y m).current_month
      = _summarize
          (_load_dataframe coll (DateTime.midnight y m 1) (specNextMonthStart y m))
          (month_period y m)
    ∧ (compute_mom coll y m).previous_month
      = _summarize
          (_load_dataframe coll
            (DateTime.midnight (specPrevMonth y m).1 (specPrevMonth y m).2 1)
            (DateTime.midnight y m 1))
          (month_period (specPrevMonth y m).1 (specPrevMonth y m).2) := by
  constructor
  · simp only [compute_mom, if_isEmpty_filter]
    rw [mom_current_filter coll y m hm1 hm2 hv]
  · simp only [compute_mom, if_isEmpty_filter]
    rw [mom_prev_filter coll y m hm1 hm2 hv]
    unfold specPrevMonth
    rcases eq_or_ne m 1 with h | h <;> simp [h]

/-- Witness for C4, realizing the spec scenario: `compute_mom(2024, 1)`
compares January 2024 (one appointment) against December 2023 (labelled
`2023-12`), rolling the year boundary. -/
theorem mom_calendar_ranges_witness :
    (compute_mom c1_collA 2024 1).current_month
      = _summarize
          (_load_dataframe c1_collA (DateTime.midnight 2024 1 1) (DateTime.midnight 2024 2 1))
          (month_period 2024 1)
    ∧ (compute_mom c1_collA 2024 1).previous_month
      = _summarize
          (_load_dataframe c1_collA (DateTime.midnight 2023 12 1) (DateTime.midnight 2024 1 1))
          (month_period 2023 12)
    ∧ (compute_mom c1_collA 2024 1).previous_month.period = "2023-12"
    ∧ (compute_mom c1_collA 2024 1).current_month.total_count = 1 := by
  have h := mom_calendar_ranges c1_collA 2024 1 (by norm_num) (by norm_num) (by decide)
  refine ⟨?_, ?_, by decide, by decide⟩
  · have h1 := h.1
    simpa [specNextMonthStart] using h1
  · have h2 := h.2
    simpa [specPrevMonth] using h2

/-- Every row of `freq` carries an attendee id occurring in the window. -/
theorem freq_mem_ids {apts : List InsApt} {r : FreqRow} (hr : r ∈ freq apts) :
    r.attendee_id ∈ apts.map (·.attendee_id) := by
  unfold freq at hr
  obtain ⟨aid, haid, heq⟩ := List.mem_map.mp hr
  subst heq
  exact List.mem_dedup.mp haid

/-- The nearest-rank index at `q = 0.25` is a valid index of a nonempty
column. -/
theorem quantile_idx_lt {n : ℕ} (hn : 0 < n) : quantile_nearest_idx n < n := by
  unfold quantile_nearest_idx
  have h1 : (1 : ℚ) ≤ (n : ℚ) := by exact_mod_cast hn
  have h2 : round (((n : ℚ) - 1) / 4) < (n : ℤ) := by
    rw [round_eq]
    refine Int.floor_lt.mpr ?_
    push_cast
    linarith
  omega

/-- Claim C8: `get_inactive_customers` left-joins the per-customer appointment
frequency onto the full customer set (zero-appointment customers get count 0
and no last appointment), takes as threshold the nearest-rank 25th percentile
of the count distribution (an element of that distribution), and returns the
customers at or below the threshold sorted ascending by (count,
last-appointment nulls-first), truncated to `limit`. -/
theorem inactive_customers_selection (customers : List Customer) (apts : List InsApt)
    (limit : ℕ) (hne : customers ≠ []) :
    (get_inactive_customers customers apts limit
      = some { threshold := quantile25_nearest
                  ((inactive_joined customers apts).map (·.total_appointments)),
               total_customers := ((inactive_joined customers apts).length : ℤ),
               inactive_count := ((inactive_rows customers apts limit).length : ℤ),
               customers := (inactive_rows customers apts limit).map to_item })
    ∧ (inactive_joined customers apts).length = customers.length
    ∧ (∀ c ∈ customers, (∀ a ∈ apts, a.attendee_id ≠ c.id) →
        ({ id := c.id, name := c.name, surname := c.surname,
           total_appointments := 0, last_appointment := none } : JoinedRow)
          ∈ inactive_joined customers apts)
    ∧ quantile25_nearest ((inactive_joined customers apts).map (·.total_appointments))
        ∈ (inactive_joined customers apts).map (·.total_appointments)
    ∧ List.Sorted JoinedRow.Le (inactive_rows customers apts limit)
    ∧ (∀ r ∈ inactive_rows customers apts limit,
        r.total_appointments
          ≤ quantile25_nearest ((inactive_joined customers apts).map (·.total_appointments)))
    ∧ (inactive_rows customers apts limit).length ≤ limit
    ∧ (((inactive_joined customers apts).filter fun r =>
          decide (r.total_appointments
            ≤ quantile25_nearest ((inactive_joined customers apts).map (·.total_appointments)))).length
          ≤ limit →
        (inactive_rows customers apts limit).Perm
          ((inactive_joined customers apts).filter fun r =>
            decide (r.total_appointments
              ≤ quantile25_nearest ((inactive_joined customers apts).map (·.total_appointments))))) := by
  have hnemp : customers.isEmpty = false := List.isEmpty_eq_false.mpr hne
  refine ⟨?_, ?_, ?_, ?_, ?_, ?_, ?_, ?_⟩
  · simp only [get_inactive_customers, hnemp, Bool.false_eq_true, if_false]
  · simp [inactive_joined, left_join]
  · intro c hc hno
    unfold inactive_joined left_join
    have hfind : (freq apts).find? (fun r => r.attendee_id == c.id) = none := by
      refine List.find?_eq_none.mpr fun r hr hbeq => ?_
      have hid : r.attendee_id = c.id := by
        simpa using hbeq
      obtain ⟨a, haa, hai⟩ := List.mem_map.mp (freq_mem_ids hr)
      exact hno a haa (by rw [hai, hid])
    refine List.mem_map.mpr ⟨c, hc, ?_⟩
    rw [hfind]
  · have hn : 0 < ((inactive_joined customers apts).map (·.total_appointments)).length := by
      simp only [List.length_map, inactive_joined, left_join]
      exact List.length_pos.mpr hne
    have hidx : quantile_nearest_idx
        ((inactive_joined customers apts).map (·.total_appointments)).length
        < (List.insertionSort (fun a b : ℤ => a ≤ b)
            ((inactive_joined customers apts).map (·.total_appointments))).length := by
      rw [(List.perm_insertionSort (fun a b : ℤ => a ≤ b) _).length_eq]
      exact quantile_idx_lt hn
    unfold quantile25_nearest
    rw [List.getD_eq_getElem _ 0 hidx]
    exact (List.perm_insertionSort (fun a b : ℤ => a ≤ b) _).mem_iff.mp
      (List.getElem_mem hidx)
  · exact (List.sorted_insertionSort JoinedRow.Le _).sublist (List.take_sublist _ _)
  · intro r hr
    have hr1 : r ∈ List.insertionSort JoinedRow.Le
        ((inactive_joined customers apts).filter fun r =>
          decide (r.total_appointments
            ≤ quantile25_nearest ((inactive_joined customers apts).map (·.total_appointments)))) :=
      List.mem_of_mem_take hr
    have hr2 := (List.mem_insertionSort JoinedRow.Le).mp hr1
    exact of_decide_eq_true (List.mem_filter.mp hr2).2
  · exact List.length_take_le _ _
  · intro hlen
    unfold inactive_rows
    rw [List.take_of_length_le]
    · exact List.perm_insertionSort _ _
    · rw [(List.perm_insertionSort JoinedRow.Le _).length_eq]
      exact hlen

/-- Customers and appointments realizing counts `[0, 1, 2]`: the threshold is
the count 1 and only the two customers at or below it are returned, in
ascending order. -/
def c8_customers : List Customer :=
  [⟨"u1", "Ada", "A"⟩, ⟨"u2", "Bob", "B"⟩, ⟨"u3", "Cyd", "C"⟩]

/-- Appointment window for the C8 witness: one for `u2`, two for `u3`. -/
def c8_apts : List InsApt :=
  [⟨"u2", DateTime.midnight 2025 9 1⟩,
   ⟨"u3", DateTime.midnight 2025 9 2⟩,
   ⟨"u3", DateTime.midnight 2025 8 2⟩]

/-- Witness for C8 at a concrete customer set with counts `[0, 1, 2]`. -/
theorem inactive_customers_selection_witness :
    List.Sorted JoinedRow.Le (inactive_rows c8_customers c8_apts 50)
    ∧ (inactive_rows c8_customers c8_apts 50).length ≤ 50
    ∧ (inactive_joined c8_customers c8_apts).length = 3 := by
  have h := inactive_customers_selection c8_customers c8_apts 50 (by decide)
  exact ⟨h.2.2.2.2.1, h.2.2.2.2.2.2.1, by rw [h.2.1]; rfl⟩

end Beaesthetic
